import Mathlib

/-!
Shallow embedding of the buildkit crate (src/lib.rs): a build-time
dependency-resolution helper.  Rust data types become Lean structures and
inductives; functions reading environment variables take the environment as an
explicit map; the fallible parts return Except; emitted cargo build-script
lines are returned as an explicit list of strings.

String operations from Rust are modelled over the character list of a Lean
String so that they reduce in the kernel:
  - str::to_uppercase  ==> mapping Char.toUpper over the characters (the
    inputs of interest are ASCII, where the two agree);
  - str::replace("-", "_")  ==> mapping a one-character substitution over the
    characters (for a one-character pattern, replace is exactly char-wise);
  - str::ends_with(suffix)  ==> List.isSuffixOf on the character lists.
-/

/-- Model of str::to_uppercase (ASCII-faithful). -/
def rustToUppercase (s : String) : String :=
  String.mk (s.data.map Char.toUpper)

/-- Model of str::replace("-", "_"): every occurrence of the one-character
pattern is substituted, which is exactly a character-wise map. -/
def rustReplaceDashUnderscore (s : String) : String :=
  String.mk (s.data.map (fun c => if c == '-' then '_' else c))

/-- Model of str::ends_with. -/
def rustEndsWith (s pat : String) : Bool :=
  List.isSuffixOf pat.data s.data

/-- The ambient process environment: a partial map from variable names to
values (std::env::var succeeds exactly on the variables present). -/
def Env : Type := String → Option String

/-- enum BuildKitMode from src/lib.rs (serde kebab-case names live in the
decoder below). -/
inductive BuildKitMode where
  | PkgConfig
  | Vcpkg
  | VendoredBuild
deriving DecidableEq, Repr

/-- enum PkgConfigVersionReq from src/lib.rs (untagged serde enum; the decoder
below reproduces the untagged first-match semantics). -/
inductive PkgConfigVersionReq where
  | Range (min max : String)
  | Min (min : String)
  | Max (max : String)
  | Exact (exact : String)
deriving DecidableEq, Repr

/-- struct PkgConfigRequirement from src/lib.rs. -/
structure PkgConfigRequirement where
  name : String
  version_req : Option PkgConfigVersionReq
deriving DecidableEq, Repr

/-- struct VcpkgLibName from src/lib.rs. -/
structure VcpkgLibName where
  lib_name : String
  dll_name : String
deriving DecidableEq, Repr

/-- struct VcpkgRequirement from src/lib.rs. -/
structure VcpkgRequirement where
  name : String
  libs : List VcpkgLibName
deriving DecidableEq, Repr

/-- enum VendoredSource from src/lib.rs; Utf8PathBuf is modelled as String. -/
inductive VendoredSource where
  | RemoteTarball (url hash : String)
  | GitRepo (url git_ref hash : String)
  | CratePath (relative_path : String)
  | SystemPath (path : String)
deriving DecidableEq, Repr

/-- struct BuildKitMetadata from src/lib.rs: the decoded
package.metadata.buildkit section. -/
structure BuildKitMetadata where
  pkg_config : Option PkgConfigRequirement
  vcpkg : Option VcpkgRequirement
  vendored_source : Option VendoredSource
  default_mode : BuildKitMode
deriving DecidableEq, Repr

/-- enum ErrorKind from src/lib.rs.  Payloads that are foreign error values
(cargo_metadata::Error, serde_json::Error, vcpkg::Error, pkg_config::Error,
std::env::VarError, Box of dyn Error) are modelled as their message strings;
EnvVarError keeps the variable name it reports. -/
inductive ErrorKind where
  | CargoMetadataError (msg : String)
  | InvalidCargoMetadata (msg : String)
  | Json (msg : String)
  | NoVendoredSourceSpecified
  | NoPkgConfigRequirementSpecified
  | NoVcpkgRequirementSpecified
  | VcpkgError (msg : String)
  | PkgConfigError (msg : String)
  | EnvVarError (key : String)
  | Custom (msg : String)
deriving DecidableEq, Repr

/-- fn env_var from src/lib.rs: read one environment variable, reporting the
per-variable EnvVarError when it is absent. -/
def env_var (key : String) (env : Env) : Except ErrorKind String :=
  match env key with
  | some v => Except.ok v
  | none => Except.error (ErrorKind.EnvVarError key)

/-- BuildKit::mode from src/lib.rs: an explicit vendored default wins
unconditionally; otherwise the TARGET triple is read and the -windows-msvc
suffix selects vcpkg, with pkg-config for every other triple. -/
def BuildKit.mode (m : BuildKitMetadata) (env : Env) : Except ErrorKind BuildKitMode :=
  match m.default_mode with
  | BuildKitMode.VendoredBuild => Except.ok BuildKitMode.VendoredBuild
  | _ =>
    match env_var "TARGET" env with
    | Except.error e => Except.error e
    | Except.ok target =>
      if rustEndsWith target "-windows-msvc" then
        Except.ok BuildKitMode.Vcpkg
      else
        Except.ok BuildKitMode.PkgConfig

/-- C1: a configuration whose default_mode is vendored-build resolves to
vendored-build for every environment, in particular when TARGET is absent or
arbitrary: the environment is never consulted. -/
theorem vendored_default_short_circuits (m : BuildKitMetadata) (env : Env)
    (h : m.default_mode = BuildKitMode.VendoredBuild) :
    BuildKit.mode m env = Except.ok BuildKitMode.VendoredBuild := by
  unfold BuildKit.mode
  rw [h]

/-- C1 witness: a concrete vendored-default configuration with an empty
environment (TARGET absent) still resolves to vendored-build. -/
theorem vendored_default_short_circuits_witness :
    BuildKit.mode
      { pkg_config := none, vcpkg := none, vendored_source := none,
        default_mode := BuildKitMode.VendoredBuild }
      (fun _ => none) = Except.ok BuildKitMode.VendoredBuild :=
  vendored_default_short_circuits
    { pkg_config := none, vcpkg := none, vendored_source := none,
      default_mode := BuildKitMode.VendoredBuild }
    (fun _ => none) rfl

/-- C2: when default_mode is not vendored-build, resolution reads TARGET: a
triple ending in -windows-msvc yields vcpkg, any other triple yields
pkg-config, and an absent TARGET yields the per-variable EnvVarError naming
TARGET. -/
theorem mode_follows_target_triple (m : BuildKitMetadata) (env : Env)
    (h : m.default_mode ≠ BuildKitMode.VendoredBuild) :
    (∀ target, env "TARGET" = some target →
      (rustEndsWith target "-windows-msvc" = true →
        BuildKit.mode m env = Except.ok BuildKitMode.Vcpkg) ∧
      (rustEndsWith target "-windows-msvc" = false →
        BuildKit.mode m env = Except.ok BuildKitMode.PkgConfig)) ∧
    (env "TARGET" = none →
      BuildKit.mode m env = Except.error (ErrorKind.EnvVarError "TARGET")) := by
  cases hm : m.default_mode with
  | VendoredBuild => exact absurd hm h
  | PkgConfig =>
    refine ⟨fun target ht => ⟨fun he => ?_, fun he => ?_⟩, fun ht => ?_⟩ <;>
      simp_all [BuildKit.mode, env_var]
  | Vcpkg =>
    refine ⟨fun target ht => ⟨fun he => ?_, fun he => ?_⟩, fun ht => ?_⟩ <;>
      simp_all [BuildKit.mode, env_var]

/-- C2 witness: with a pkg-config default and TARGET set to an msvc triple the
resolver picks vcpkg. -/
theorem mode_follows_target_triple_witness :
    BuildKit.mode
      { pkg_config := none, vcpkg := none, vendored_source := none,
        default_mode := BuildKitMode.PkgConfig }
      (fun _ => some "x86_64-pc-windows-msvc") = Except.ok BuildKitMode.Vcpkg :=
  ((mode_follows_target_triple
      { pkg_config := none, vcpkg := none, vendored_source := none,
        default_mode := BuildKitMode.PkgConfig }
      (fun _ => some "x86_64-pc-windows-msvc")
      (by decide)).1 "x86_64-pc-windows-msvc" rfl).1 (by decide)

/-!
Document model and decoding.  The package.metadata.buildkit value is a
serde_json::Value; the decoders below reproduce the behavior of the derived
serde Deserialize impls in src/lib.rs:
  - struct fields are renamed to kebab-case;
  - unknown fields of a struct are ignored (no deny_unknown_fields is used);
  - a field looked up in an object takes the first occurrence of its key;
  - Option fields default to none when the key is absent;
  - enums with unit variants (BuildKitMode) decode from a string;
  - externally tagged enums (VendoredSource) decode from a single-entry map;
  - the untagged enum PkgConfigVersionReq tries its variants in declaration
    order and returns the first that matches.
-/

/-- Semi-structured document values (the subset of JSON the schema uses). -/
inductive Json where
  | str (s : String)
  | obj (fields : List (String × Json))
  | arr (elems : List Json)

/-- Looks up a key in an object field list (first occurrence wins). -/
def getField (fields : List (String × Json)) (key : String) : Option Json :=
  (fields.find? (fun kv => kv.1 == key)).map (fun kv => kv.2)

/-- Decodes a String field value. -/
def decodeString : Json → Except String String
  | Json.str s => Except.ok s
  | _ => Except.error "invalid type, expected a string"

/-- Decodes a required String field of a struct. -/
def reqStrField (fields : List (String × Json)) (key : String) :
    Except String String :=
  match getField fields key with
  | none => Except.error ("missing field " ++ key)
  | some j => decodeString j

/-- Decoder for BuildKitMode (unit variants, kebab-case names). -/
def decodeBuildKitMode : Json → Except String BuildKitMode
  | Json.str "pkg-config" => Except.ok BuildKitMode.PkgConfig
  | Json.str "vcpkg" => Except.ok BuildKitMode.Vcpkg
  | Json.str "vendored-build" => Except.ok BuildKitMode.VendoredBuild
  | _ => Except.error "unknown variant for BuildKitMode"

/-- Decoder for the Range shape of PkgConfigVersionReq: requires min and max,
ignores any other key. -/
def decodeVRRange (j : Json) : Except String PkgConfigVersionReq :=
  match j with
  | Json.obj fields => do
    let mn ← reqStrField fields "min"
    let mx ← reqStrField fields "max"
    Except.ok (PkgConfigVersionReq.Range mn mx)
  | _ => Except.error "invalid type, expected a map"

/-- Decoder for the Min shape of PkgConfigVersionReq. -/
def decodeVRMin (j : Json) : Except String PkgConfigVersionReq :=
  match j with
  | Json.obj fields => do
    let mn ← reqStrField fields "min"
    Except.ok (PkgConfigVersionReq.Min mn)
  | _ => Except.error "invalid type, expected a map"

/-- Decoder for the Max shape of PkgConfigVersionReq. -/
def decodeVRMax (j : Json) : Except String PkgConfigVersionReq :=
  match j with
  | Json.obj fields => do
    let mx ← reqStrField fields "max"
    Except.ok (PkgConfigVersionReq.Max mx)
  | _ => Except.error "invalid type, expected a map"

/-- Decoder for the Exact shape of PkgConfigVersionReq. -/
def decodeVRExact (j : Json) : Except String PkgConfigVersionReq :=
  match j with
  | Json.obj fields => do
    let ex ← reqStrField fields "exact"
    Except.ok (PkgConfigVersionReq.Exact ex)
  | _ => Except.error "invalid type, expected a map"

/-- Decoder for the untagged enum PkgConfigVersionReq: serde tries the
variants in declaration order (Range, Min, Max, Exact) and returns the first
that deserializes. -/
def decodePkgConfigVersionReq (j : Json) : Except String PkgConfigVersionReq :=
  match decodeVRRange j with
  | Except.ok v => Except.ok v
  | Except.error _ =>
    match decodeVRMin j with
    | Except.ok v => Except.ok v
    | Except.error _ =>
      match decodeVRMax j with
      | Except.ok v => Except.ok v
      | Except.error _ =>
        match decodeVRExact j with
        | Except.ok v => Except.ok v
        | Except.error _ =>
          Except.error "data did not match any variant of untagged enum PkgConfigVersionReq"

/-- Decoder for PkgConfigRequirement: required name, optional version-req. -/
def decodePkgConfigRequirement (j : Json) : Except String PkgConfigRequirement :=
  match j with
  | Json.obj fields => do
    let name ← reqStrField fields "name"
    let vr ← match getField fields "version-req" with
      | none => pure none
      | some vj => (decodePkgConfigVersionReq vj).map some
    Except.ok { name := name, version_req := vr }
  | _ => Except.error "invalid type, expected a map"

/-- Decoder for VcpkgLibName: required lib-name and dll-name. -/
def decodeVcpkgLibName (j : Json) : Except String VcpkgLibName :=
  match j with
  | Json.obj fields => do
    let ln ← reqStrField fields "lib-name"
    let dn ← reqStrField fields "dll-name"
    Except.ok { lib_name := ln, dll_name := dn }
  | _ => Except.error "invalid type, expected a map"

/-- Decodes each element of a sequence. -/
def decodeList (dec : Json → Except String α) : List Json → Except String (List α)
  | [] => Except.ok []
  | j :: rest => do
    let x ← dec j
    let xs ← decodeList dec rest
    Except.ok (x :: xs)

/-- Decoder for VcpkgRequirement: required name and required libs sequence. -/
def decodeVcpkgRequirement (j : Json) : Except String VcpkgRequirement :=
  match j with
  | Json.obj fields => do
    let name ← reqStrField fields "name"
    let libs ← match getField fields "libs" with
      | none => Except.error "missing field libs"
      | some (Json.arr elems) => decodeList decodeVcpkgLibName elems
      | some _ => Except.error "invalid type, expected a sequence"
    Except.ok { name := name, libs := libs }
  | _ => Except.error "invalid type, expected a map"

/-- Decoder for the externally tagged enum VendoredSource: a single-entry map
whose key is the kebab-case variant name.  SystemPath is decoded like every
other variant: the derive places no restriction on it (the source only has a
TODO comment saying it should not be specifiable in the crate). -/
def decodeVendoredSource (j : Json) : Except String VendoredSource :=
  match j with
  | Json.obj [(tag, inner)] =>
    match tag, inner with
    | "remote-tarball", Json.obj fields => do
      let url ← reqStrField fields "url"
      let hash ← reqStrField fields "hash"
      Except.ok (VendoredSource.RemoteTarball url hash)
    | "git-repo", Json.obj fields => do
      let url ← reqStrField fields "url"
      let gref ← reqStrField fields "git-ref"
      let hash ← reqStrField fields "hash"
      Except.ok (VendoredSource.GitRepo url gref hash)
    | "crate-path", Json.obj fields => do
      let p ← reqStrField fields "relative-path"
      Except.ok (VendoredSource.CratePath p)
    | "system-path", Json.obj fields => do
      let p ← reqStrField fields "path"
      Except.ok (VendoredSource.SystemPath p)
    | _, _ => Except.error "unknown variant for VendoredSource"
  | _ => Except.error "expected a map with a single key"

/-- Decoder for BuildKitMetadata: three optional fields and the required
default-mode.  Unknown keys are ignored, as serde does without
deny_unknown_fields. -/
def decodeBuildKitMetadata (j : Json) : Except String BuildKitMetadata :=
  match j with
  | Json.obj fields => do
    let pc ← match getField fields "pkg-config" with
      | none => pure none
      | some x => (decodePkgConfigRequirement x).map some
    let vc ← match getField fields "vcpkg" with
      | none => pure none
      | some x => (decodeVcpkgRequirement x).map some
    let vs ← match getField fields "vendored-source" with
      | none => pure none
      | some x => (decodeVendoredSource x).map some
    let dm ← match getField fields "default-mode" with
      | none => Except.error "missing field default-mode"
      | some x => decodeBuildKitMode x
    Except.ok { pkg_config := pc, vcpkg := vc, vendored_source := vs, default_mode := dm }
  | _ => Except.error "invalid type, expected a map"

/-!
Manifest loading (BuildKit::from_metadata) and dispatch (BuildKit::build).
The cargo_metadata invocation is an external collaborator: its package list is
passed in explicitly.  The two probers (pkg_config and vcpkg crates) are
external collaborators as well and are passed in as oracles.  Emitted cargo
lines (println to the build-log channel) are collected in a list, in order.
-/

/-- One entry of cargo metadata: package name, version, and the raw
package.metadata value. -/
structure Package where
  name : String
  version : String
  metadata : Json

/-- Model of serde_json::Value::get on the package metadata: a key lookup that
yields none when the value is not an object or the key is absent. -/
def jsonGet (j : Json) (key : String) : Option Json :=
  match j with
  | Json.obj fields => getField fields key
  | _ => none

/-- Model of iter().filter(matches).next() in BuildKit::from_metadata: the
first package whose name and version both match. -/
def findPackage (packages : List Package) (name version : String) : Option Package :=
  (packages.filter (fun p => p.name == name && p.version == version)).head?

/-- BuildKit::from_metadata from src/lib.rs: read CARGO_MANIFEST_DIR, run the
external metadata command (its package list is the packages argument), read
CARGO_PKG_NAME and CARGO_PKG_VERSION, take the first matching package entry or
fail, extract metadata.buildkit or fail, and decode it. -/
def BuildKit.from_metadata (packages : List Package) (env : Env) :
    Except ErrorKind BuildKitMetadata := do
  let _manifest_dir ← env_var "CARGO_MANIFEST_DIR" env
  let name ← env_var "CARGO_PKG_NAME" env
  let version ← env_var "CARGO_PKG_VERSION" env
  match findPackage packages name version with
  | none =>
    Except.error (ErrorKind.InvalidCargoMetadata
      ("package info from " ++ name ++ "@" ++ version))
  | some package =>
    match jsonGet package.metadata "buildkit" with
    | none =>
      Except.error (ErrorKind.InvalidCargoMetadata
        ("metadata.buildkit for " ++ name ++ "@" ++ version))
    | some value =>
      match decodeBuildKitMetadata value with
      | Except.error e => Except.error (ErrorKind.Json e)
      | Except.ok md => Except.ok md

/-- struct VendoredBuildContext from src/lib.rs (Utf8PathBuf as String). -/
structure VendoredBuildContext where
  source_path : String
deriving DecidableEq, Repr

/-- VendoredBuildContext::new from src/lib.rs: the source argument is unused
and the path is set to Utf8PathBuf::new(), the empty path. -/
def VendoredBuildContext.new (_source : VendoredSource) : VendoredBuildContext :=
  { source_path := "" }

/-- fn emit_no_vendor from src/lib.rs, split into the derived variable name:
the library name uppercased with every hyphen replaced by an underscore,
suffixed _NO_VENDOR. -/
def no_vendor_var (lib_name : String) : String :=
  rustReplaceDashUnderscore (rustToUppercase lib_name) ++ "_NO_VENDOR"

/-- fn emit_no_vendor from src/lib.rs: the cargo line it prints. -/
def emit_no_vendor (lib_name : String) : String :=
  "cargo:rerun-if-env-changed=" ++ no_vendor_var lib_name

/-- Response of the external pkg-config prober: the discovered library with
its include paths. -/
structure PkgLibrary where
  include_paths : List String

/-- The external pkg-config prober as an oracle: it receives the requirement
(name and version constraint, as Config::probe does after range_version or
exactly_version configuration) and reports the library or its native error. -/
def PkgProber : Type := PkgConfigRequirement → Except String PkgLibrary

/-- The external vcpkg prober as an oracle: it receives the requirement (name
and lib-name overrides, as Config::find_package does) and reports success or
its native error. -/
def VcpkgProber : Type := VcpkgRequirement → Except String Unit

/-- fn try_pkg_config from src/lib.rs: emit the rerun-if-env-changed line,
probe, and on success emit one cargo:include line per include path; prober
failure is wrapped as PkgConfigError. -/
def try_pkg_config (probe : PkgProber) (req : PkgConfigRequirement) :
    Except ErrorKind Unit × List String :=
  match probe req with
  | Except.error e =>
    (Except.error (ErrorKind.PkgConfigError e), [emit_no_vendor req.name])
  | Except.ok lib =>
    (Except.ok (),
      emit_no_vendor req.name ::
        lib.include_paths.map (fun p => "cargo:include=" ++ p))

/-- fn try_vcpkg from src/lib.rs: emit the rerun-if-env-changed line and
probe; prober failure is wrapped as VcpkgError.  Lines the vcpkg crate itself
prints are the external collaborator's, not tracked here. -/
def try_vcpkg (probe : VcpkgProber) (req : VcpkgRequirement) :
    Except ErrorKind Unit × List String :=
  match probe req with
  | Except.error e =>
    (Except.error (ErrorKind.VcpkgError e), [emit_no_vendor req.name])
  | Except.ok _ =>
    (Except.ok (), [emit_no_vendor req.name])

/-- BuildKit::build from src/lib.rs: resolve the mode, check the matching
declaration is present (else the mode-specific requirement error), and
dispatch to the vendored handler or one of the probers.  The result pairs the
Rust return value with the list of cargo lines this crate printed. -/
def BuildKit.build (m : BuildKitMetadata) (env : Env) (pkgProbe : PkgProber)
    (vcpkgProbe : VcpkgProber)
    (try_vendor : VendoredBuildContext → Except ErrorKind Unit) :
    Except ErrorKind Unit × List String :=
  match BuildKit.mode m env with
  | Except.error e => (Except.error e, [])
  | Except.ok BuildKitMode.VendoredBuild =>
    match m.vendored_source with
    | none => (Except.error ErrorKind.NoVendoredSourceSpecified, [])
    | some vendored_source =>
      (try_vendor (VendoredBuildContext.new vendored_source), [])
  | Except.ok BuildKitMode.PkgConfig =>
    match m.pkg_config with
    | none => (Except.error ErrorKind.NoPkgConfigRequirementSpecified, [])
    | some req => try_pkg_config pkgProbe req
  | Except.ok BuildKitMode.Vcpkg =>
    match m.vcpkg with
    | none => (Except.error ErrorKind.NoVcpkgRequirementSpecified, [])
    | some req => try_vcpkg vcpkgProbe req

/-!
Claims about decoding.
-/

/-- Shapes of PkgConfigVersionReq that a document matches, in the declaration
order of the untagged enum. -/
def vrShapeMatches (j : Json) : List PkgConfigVersionReq :=
  (decodeVRRange j).toOption.toList ++ (decodeVRMin j).toOption.toList ++
    (decodeVRMax j).toOption.toList ++ (decodeVRExact j).toOption.toList

/-- C3 counterexample: the document with both min and exact matches two
shapes (Min and Exact) yet decoding does not fail: the untagged decoder
returns the first matching shape, Min. -/
theorem ambiguous_version_req_decodes :
    decodeVRMin (Json.obj [("min", Json.str "1.0"), ("exact", Json.str "2.0")])
      = Except.ok (PkgConfigVersionReq.Min "1.0") ∧
    decodeVRExact (Json.obj [("min", Json.str "1.0"), ("exact", Json.str "2.0")])
      = Except.ok (PkgConfigVersionReq.Exact "2.0") ∧
    decodePkgConfigVersionReq (Json.obj [("min", Json.str "1.0"), ("exact", Json.str "2.0")])
      = Except.ok (PkgConfigVersionReq.Min "1.0") :=
  ⟨rfl, rfl, rfl⟩

/-- C3 amended: the untagged decoder returns the first matching shape in the
order Range, Min, Max, Exact (extra keys ignored), and fails exactly when no
shape matches; in particular a document matching exactly one shape decodes to
that shape's value. -/
theorem untagged_decode_first_match (j : Json) :
    decodePkgConfigVersionReq j =
      match vrShapeMatches j with
      | [] => Except.error "data did not match any variant of untagged enum PkgConfigVersionReq"
      | v :: _ => Except.ok v := by
  unfold decodePkgConfigVersionReq vrShapeMatches
  cases decodeVRRange j <;> cases decodeVRMin j <;> cases decodeVRMax j <;>
    cases decodeVRExact j <;> simp [Except.toOption]

/-- C3 amended, instantiated: a document with only the exact key decodes to
the Exact shape. -/
theorem untagged_decode_first_match_witness :
    decodePkgConfigVersionReq (Json.obj [("exact", Json.str "2.0")]) =
      match vrShapeMatches (Json.obj [("exact", Json.str "2.0")]) with
      | [] => Except.error "data did not match any variant of untagged enum PkgConfigVersionReq"
      | v :: _ => Except.ok v :=
  untagged_decode_first_match (Json.obj [("exact", Json.str "2.0")])

/-- C6 counterexample: an unknown key directly inside the buildkit
sub-document is ignored, not rejected: the document still decodes. -/
theorem unknown_key_in_buildkit_accepted :
    decodeBuildKitMetadata
      (Json.obj [("default-mode", Json.str "pkg-config"), ("mystery-key", Json.str "x")])
      = Except.ok { pkg_config := none, vcpkg := none, vendored_source := none,
                    default_mode := BuildKitMode.PkgConfig } :=
  rfl

/-- Appending an entry under a different key does not change a field lookup. -/
theorem getField_append_single_ne (fields : List (String × Json)) (k key : String)
    (v : Json) (h : key ≠ k) :
    getField (fields ++ [(k, v)]) key = getField fields key := by
  have hb : (k == key) = false := beq_eq_false_iff_ne.mpr (Ne.symm h)
  induction fields with
  | nil =>
    simp only [getField, List.nil_append, List.find?, hb]
  | cons kv rest ih =>
    simp only [getField, List.cons_append, List.find?] at ih ⊢
    cases hk : (kv.1 == key) with
    | true => rfl
    | false => exact ih

/-- C6 amended: unknown keys are ignored both inside the buildkit
sub-document (serde ignores unknown struct fields: adding one does not change
the decoding result) and outside it (only the buildkit key of the package
metadata is ever read). -/
theorem unknown_keys_ignored (fields : List (String × Json)) (k : String) (v : Json)
    (h1 : k ≠ "pkg-config") (h2 : k ≠ "vcpkg") (h3 : k ≠ "vendored-source")
    (h4 : k ≠ "default-mode") (mfields : List (String × Json)) (k2 : String)
    (v2 : Json) (h5 : k2 ≠ "buildkit") :
    decodeBuildKitMetadata (Json.obj (fields ++ [(k, v)]))
      = decodeBuildKitMetadata (Json.obj fields) ∧
    jsonGet (Json.obj (mfields ++ [(k2, v2)])) "buildkit"
      = jsonGet (Json.obj mfields) "buildkit" := by
  constructor
  · simp only [decodeBuildKitMetadata]
    rw [getField_append_single_ne fields k "pkg-config" v (Ne.symm h1),
      getField_append_single_ne fields k "vcpkg" v (Ne.symm h2),
      getField_append_single_ne fields k "vendored-source" v (Ne.symm h3),
      getField_append_single_ne fields k "default-mode" v (Ne.symm h4)]
  · simp only [jsonGet]
    exact getField_append_single_ne mfields k2 "buildkit" v2 (Ne.symm h5)

/-- C6 amended witness: a concrete unknown key inside the sub-document and a
concrete sibling key outside it, both without effect. -/
theorem unknown_keys_ignored_witness :
    decodeBuildKitMetadata
      (Json.obj ([("default-mode", Json.str "vcpkg")] ++ [("mystery-key", Json.str "x")]))
      = decodeBuildKitMetadata (Json.obj [("default-mode", Json.str "vcpkg")]) ∧
    jsonGet (Json.obj ([("buildkit", Json.str "y")] ++ [("sibling", Json.str "z")])) "buildkit"
      = jsonGet (Json.obj [("buildkit", Json.str "y")]) "buildkit" :=
  unknown_keys_ignored [("default-mode", Json.str "vcpkg")] "mystery-key" (Json.str "x")
    (by decide) (by decide) (by decide) (by decide)
    [("buildkit", Json.str "y")] "sibling" (Json.str "z") (by decide)

/-- C7: the manifest decoder does produce the SystemPath variant: the derived
deserializer decodes it like every other variant, so a manifest document can
declare a system path, contradicting the restriction stated by the spec and
by the TODO comment in the source. -/
theorem system_path_decodable_from_manifest :
    decodeVendoredSource
      (Json.obj [("system-path", Json.obj [("path", Json.str "/opt/vendored-src")])])
      = Except.ok (VendoredSource.SystemPath "/opt/vendored-src") ∧
    decodeBuildKitMetadata
      (Json.obj
        [("vendored-source",
            Json.obj [("system-path", Json.obj [("path", Json.str "/opt/vendored-src")])]),
          ("default-mode", Json.str "vendored-build")])
      = Except.ok { pkg_config := none, vcpkg := none,
                    vendored_source := some (VendoredSource.SystemPath "/opt/vendored-src"),
                    default_mode := BuildKitMode.VendoredBuild } :=
  ⟨rfl, rfl⟩

/-!
Claims about dispatch, signal emission, and package lookup.
-/

/-- C4: VendoredBuildContext::new discards the declared source and always
yields the empty path: dispatching in vendored mode with a declared
crate-path of vendor/foo hands the handler a context whose source_path is
the empty string, not vendor/foo.  The handler here reports the path it was
given through the Custom error, making the single invocation observable. -/
theorem vendored_context_ignores_declared_path :
    BuildKit.build
      { pkg_config := none, vcpkg := none,
        vendored_source := some (VendoredSource.CratePath "vendor/foo"),
        default_mode := BuildKitMode.VendoredBuild }
      (fun _ => none) (fun _ => Except.error "unused") (fun _ => Except.error "unused")
      (fun ctx => Except.error (ErrorKind.Custom ctx.source_path))
      = (Except.error (ErrorKind.Custom ""), []) ∧
    (VendoredBuildContext.new (VendoredSource.CratePath "vendor/foo")).source_path = "" ∧
    ("" : String) ≠ "vendor/foo" :=
  ⟨rfl, rfl, by decide⟩

/-- C5 counterexample: the derived variable name for A.b keeps the dot: it is
A.B_NO_VENDOR, not the A_B_NO_VENDOR the claim requires, because only hyphens
are replaced and non-alphanumeric runs are not collapsed. -/
theorem no_vendor_var_keeps_dot :
    no_vendor_var "A.b" = "A.B_NO_VENDOR" ∧
    ("A.B_NO_VENDOR" : String) ≠ "A_B_NO_VENDOR" :=
  ⟨by decide, by decide⟩

/-- C5 amended: the derived name is the library name uppercased with each
hyphen (and only hyphens) replaced by an underscore, suffixed _NO_VENDOR;
libfoo-bar gives LIBFOO_BAR_NO_VENDOR, A.b gives A.B_NO_VENDOR, and runs are
not collapsed, so a--b gives A__B_NO_VENDOR. -/
theorem no_vendor_var_amended :
    (∀ lib_name : String, no_vendor_var lib_name =
      String.mk (lib_name.data.map
        (fun c => if Char.toUpper c == '-' then '_' else Char.toUpper c)) ++ "_NO_VENDOR") ∧
    no_vendor_var "libfoo-bar" = "LIBFOO_BAR_NO_VENDOR" ∧
    no_vendor_var "A.b" = "A.B_NO_VENDOR" ∧
    no_vendor_var "a--b" = "A__B_NO_VENDOR" := by
  refine ⟨fun lib_name => ?_, by decide, by decide, by decide⟩
  simp only [no_vendor_var, rustReplaceDashUnderscore, rustToUppercase, List.map_map]
  rfl

/-- C5 amended, instantiated at libfoo-bar. -/
theorem no_vendor_var_amended_witness :
    no_vendor_var "libfoo-bar" = "LIBFOO_BAR_NO_VENDOR" :=
  no_vendor_var_amended.2.1

/-- Environment of a cargo build of package foo at version 1.0.0. -/
def envCargoFoo : Env := fun key =>
  if key == "CARGO_MANIFEST_DIR" then some "/crate"
  else if key == "CARGO_PKG_NAME" then some "foo"
  else if key == "CARGO_PKG_VERSION" then some "1.0.0"
  else none

/-- A package entry for foo at 1.0.0 whose buildkit default mode is vcpkg. -/
def pkgFooVcpkg : Package :=
  { name := "foo", version := "1.0.0",
    metadata := Json.obj [("buildkit", Json.obj [("default-mode", Json.str "vcpkg")])] }

/-- A second package entry for foo at 1.0.0 whose buildkit default mode is
pkg-config: it differs observably from the first. -/
def pkgFooPkgConfig : Package :=
  { name := "foo", version := "1.0.0",
    metadata := Json.obj [("buildkit", Json.obj [("default-mode", Json.str "pkg-config")])] }

/-- C8 counterexample: with two package entries matching name foo and version
1.0.0 exactly, loading does not fail: it silently picks the first entry, as
its vcpkg default mode shows. -/
theorem duplicate_package_entries_pick_first :
    (([pkgFooVcpkg, pkgFooPkgConfig].filter
        (fun p => p.name == "foo" && p.version == "1.0.0")).length = 2) ∧
    BuildKit.from_metadata [pkgFooVcpkg, pkgFooPkgConfig] envCargoFoo
      = Except.ok { pkg_config := none, vcpkg := none, vendored_source := none,
                    default_mode := BuildKitMode.Vcpkg } :=
  ⟨rfl, rfl⟩

/-- Selecting the first matching entry coincides with List.find?. -/
theorem findPackage_eq_find (packages : List Package) (name version : String) :
    findPackage packages name version
      = packages.find? (fun p => p.name == name && p.version == version) := by
  induction packages with
  | nil => rfl
  | cons p rest ih =>
    simp only [findPackage, List.filter, List.find?] at ih ⊢
    cases hp : (p.name == name && p.version == version) with
    | true => rfl
    | false => exact ih

/-- C8 amended: the package lookup takes the first entry matching name and
version (never failing on duplicates), and loading fails with the
missing-package configuration error exactly in the zero-match case. -/
theorem package_lookup_amended (packages : List Package) (env : Env)
    (dir name version : String)
    (hd : env "CARGO_MANIFEST_DIR" = some dir)
    (hn : env "CARGO_PKG_NAME" = some name)
    (hv : env "CARGO_PKG_VERSION" = some version) :
    (findPackage packages name version
       = packages.find? (fun p => p.name == name && p.version == version)) ∧
    (findPackage packages name version = none →
       BuildKit.from_metadata packages env
         = Except.error (ErrorKind.InvalidCargoMetadata
             ("package info from " ++ name ++ "@" ++ version))) := by
  refine ⟨findPackage_eq_find packages name version, fun hnone => ?_⟩
  simp [BuildKit.from_metadata, env_var, hd, hn, hv, hnone, Bind.bind, Except.bind]

/-- C8 amended witness: with no package entries the loader reports the
missing-package error for foo at 1.0.0. -/
theorem package_lookup_amended_witness :
    BuildKit.from_metadata [] envCargoFoo
      = Except.error (ErrorKind.InvalidCargoMetadata "package info from foo@1.0.0") :=
  (package_lookup_amended [] envCargoFoo "/crate" "foo" "1.0.0" rfl rfl rfl).2 rfl

/-- C9: whichever mode resolution picks, if the matching declaration is
absent then dispatch returns the mode-specific requirement error with no
emitted lines; the result does not depend on the handler or on either prober
oracle, so neither is ever invoked. -/
theorem missing_requirement_mode_specific (m : BuildKitMetadata) (env : Env)
    (pkgProbe : PkgProber) (vcpkgProbe : VcpkgProber)
    (try_vendor : VendoredBuildContext → Except ErrorKind Unit) :
    (BuildKit.mode m env = Except.ok BuildKitMode.VendoredBuild →
      m.vendored_source = none →
      BuildKit.build m env pkgProbe vcpkgProbe try_vendor
        = (Except.error ErrorKind.NoVendoredSourceSpecified, [])) ∧
    (BuildKit.mode m env = Except.ok BuildKitMode.PkgConfig →
      m.pkg_config = none →
      BuildKit.build m env pkgProbe vcpkgProbe try_vendor
        = (Except.error ErrorKind.NoPkgConfigRequirementSpecified, [])) ∧
    (BuildKit.mode m env = Except.ok BuildKitMode.Vcpkg →
      m.vcpkg = none →
      BuildKit.build m env pkgProbe vcpkgProbe try_vendor
        = (Except.error ErrorKind.NoVcpkgRequirementSpecified, [])) := by
  refine ⟨fun hm hs => ?_, fun hm hs => ?_, fun hm hs => ?_⟩ <;>
    simp [BuildKit.build, hm, hs]

/-- C9 witness: a vendored default with no vendored source fails with the
vendored requirement error. -/
theorem missing_requirement_mode_specific_witness :
    BuildKit.build
      { pkg_config := none, vcpkg := none, vendored_source := none,
        default_mode := BuildKitMode.VendoredBuild }
      (fun _ => none) (fun _ => Except.error "unused") (fun _ => Except.error "unused")
      (fun _ => Except.ok ())
      = (Except.error ErrorKind.NoVendoredSourceSpecified, []) :=
  (missing_requirement_mode_specific
    { pkg_config := none, vcpkg := none, vendored_source := none,
      default_mode := BuildKitMode.VendoredBuild }
    (fun _ => none) (fun _ => Except.error "unused") (fun _ => Except.error "unused")
    (fun _ => Except.ok ())).1 rfl rfl

/-- The declaration the resolved mode requires is absent. -/
def requirementMissing (md : BuildKitMode) (m : BuildKitMetadata) : Prop :=
  match md with
  | BuildKitMode.VendoredBuild => m.vendored_source = none
  | BuildKitMode.PkgConfig => m.pkg_config = none
  | BuildKitMode.Vcpkg => m.vcpkg = none

/-- The mode-specific requirement error. -/
def requirementError (md : BuildKitMode) : ErrorKind :=
  match md with
  | BuildKitMode.VendoredBuild => ErrorKind.NoVendoredSourceSpecified
  | BuildKitMode.PkgConfig => ErrorKind.NoPkgConfigRequirementSpecified
  | BuildKitMode.Vcpkg => ErrorKind.NoVcpkgRequirementSpecified

/-- C10: on the missing-requirement error path no cargo line is emitted at
all (no rerun-if-env-changed and no include line): the requirement check
precedes every emission, so the observable output is empty and the result is
exactly the mode-specific error. -/
theorem missing_requirement_emits_no_signals (m : BuildKitMetadata) (env : Env)
    (pkgProbe : PkgProber) (vcpkgProbe : VcpkgProber)
    (try_vendor : VendoredBuildContext → Except ErrorKind Unit) (md : BuildKitMode)
    (hm : BuildKit.mode m env = Except.ok md)
    (hmiss : requirementMissing md m) :
    (BuildKit.build m env pkgProbe vcpkgProbe try_vendor).2 = [] ∧
    (BuildKit.build m env pkgProbe vcpkgProbe try_vendor).1
      = Except.error (requirementError md) := by
  cases md <;> simp_all [BuildKit.build, requirementMissing, requirementError]

/-- C10 witness: pkg-config mode with no pkg-config requirement emits
nothing and fails with the pkg-config requirement error. -/
theorem missing_requirement_emits_no_signals_witness :
    (BuildKit.build
      { pkg_config := none, vcpkg := none, vendored_source := none,
        default_mode := BuildKitMode.PkgConfig }
      (fun _ => some "x86_64-unknown-linux-gnu")
      (fun _ => Except.error "unused") (fun _ => Except.error "unused")
      (fun _ => Except.ok ())).2 = [] ∧
    (BuildKit.build
      { pkg_config := none, vcpkg := none, vendored_source := none,
        default_mode := BuildKitMode.PkgConfig }
      (fun _ => some "x86_64-unknown-linux-gnu")
      (fun _ => Except.error "unused") (fun _ => Except.error "unused")
      (fun _ => Except.ok ())).1
      = Except.error (requirementError BuildKitMode.PkgConfig) :=
  missing_requirement_emits_no_signals
    { pkg_config := none, vcpkg := none, vendored_source := none,
      default_mode := BuildKitMode.PkgConfig }
    (fun _ => some "x86_64-unknown-linux-gnu")
    (fun _ => Except.error "unused") (fun _ => Except.error "unused")
    (fun _ => Except.ok ()) BuildKitMode.PkgConfig rfl rfl
